import Mathlib

/-!
Shallow embedding of the task lifecycle orchestration subsystem of the
staffmgmt/sys repository (source files: database.py, backend_server.py,
worker.py, models.py), together with theorems settling the frozen claims
about it.

The task store (an SQLite database in the source) is modelled as an
association list of task records plus an append-only list of log records.
Timestamps are modelled as natural-number ticks; each primitive takes the
current tick as an explicit parameter (the source calls `_now_iso()` at the
corresponding point).  Fallible external collaborators (the queue, the
fresh-id generator) are passed in as explicit parameters or outcome values.
-/

/-- A JSON-like value, modelling the payloads the source stores as JSON
text (`input_data`, `result_data`) and the dict/list values Python passes
around. -/
inductive JValue where
  | null : JValue
  | bool (b : Bool) : JValue
  | num (n : Int) : JValue
  | str (s : String) : JValue
  | arr (items : List JValue) : JValue
  | obj (fields : List (String × JValue)) : JValue

/-- Python str.upper() for the ASCII strings the source passes through it
(database.py calls .upper() on status and log-level arguments). -/
def pyUpper (s : String) : String := ⟨s.data.map Char.toUpper⟩

/-- Looks up a field of a JSON object field list (Python dict access). -/
def jGet (fields : List (String × JValue)) (key : String) : Option JValue :=
  match fields with
  | [] => none
  | (k, v) :: rest => if k = key then some v else jGet rest key

/-- One row of the `tasks` table (database.py, init_db).  The row id is the
key of the association list holding the record. -/
structure TaskRecord where
  task_type : String
  status : String
  created_at : Nat
  started_at : Option Nat
  completed_at : Option Nat
  input_data : JValue
  result_data : Option JValue
  error_details : Option String

/-- One row of the `task_logs` table (database.py, init_db).  Rows are kept
in insertion order, which is the AUTOINCREMENT id order the source reads
them back in. -/
structure LogRecord where
  task_id : String
  level : String
  message : String
deriving DecidableEq, Repr

/-- The task store: the `tasks` table keyed by task id, and the
`task_logs` table. -/
structure Store where
  tasks : List (String × TaskRecord)
  logs : List LogRecord

def emptyStore : Store := { tasks := [], logs := [] }

/-- SELECT of the row with the given id (first match; ids are a primary
key, so reachable stores have at most one row per id). -/
def lookupTask (ts : List (String × TaskRecord)) (id : String) : Option TaskRecord :=
  match ts with
  | [] => none
  | (k, t) :: rest => if k = id then some t else lookupTask rest id

/-- UPDATE of the row with the given id, replacing its record. -/
def setTask (ts : List (String × TaskRecord)) (id : String) (t' : TaskRecord) :
    List (String × TaskRecord) :=
  match ts with
  | [] => []
  | (k, t) :: rest => if k = id then (k, t') :: rest else (k, t) :: setTask rest id t'

namespace DB

/-- The status values admitted by `update_task_status` and by the schema
CHECK constraint (database.py lines 95 and 175). -/
def allowedStatuses : List String := ["PENDING", "RUNNING", "COMPLETED", "FAILED"]

/-- The PENDING row create_task inserts (database.py lines 146-150): status
PENDING, explicit created_at, every other nullable column NULL. -/
def freshRow (task_type : String) (input_data : JValue) (now : Nat) : TaskRecord :=
  { task_type := task_type
    status := "PENDING"
    created_at := now
    started_at := none
    completed_at := none
    input_data := input_data
    result_data := none
    error_details := none }

/-- database.py `create_task`: INSERT of a fresh PENDING row.  The Bool is
True when the insert succeeded; a duplicate id raises sqlite3.IntegrityError
in the source, modelled here as False with the store rolled back
(unchanged). -/
def create_task (st : Store) (task_id task_type : String) (input_data : JValue)
    (now : Nat) : Store × Bool :=
  match lookupTask st.tasks task_id with
  | some _ => (st, false)
  | none => ({ st with tasks := (task_id, freshRow task_type input_data now) :: st.tasks }, true)

/-- database.py `update_task_status`: conditional status transition.
Returns True iff a row was updated; an invalid target status, a missing
row, or a row not in the expected prior state yields False with the store
unchanged and, in the source, a logged warning (no exception raised, which
the totality of this function models).  The target must be one of the four
allowed statuses after upcasing; only the exact strings RUNNING (from
PENDING, setting started_at) and COMPLETED/FAILED (from RUNNING or PENDING,
setting completed_at, and error_details for FAILED or NULL for COMPLETED)
perform a write. -/
def update_task_status (st : Store) (task_id stat : String)
    (error_details : Option String) (now : Nat) : Store × Bool :=
  if pyUpper stat ∈ allowedStatuses then
    if stat = "RUNNING" then
      match lookupTask st.tasks task_id with
      | some t =>
        if t.status = "PENDING" then
          let t' := { t with status := "RUNNING", started_at := some now }
          ({ st with tasks := setTask st.tasks task_id t' }, true)
        else (st, false)
      | none => (st, false)
    else if stat = "COMPLETED" ∨ stat = "FAILED" then
      match lookupTask st.tasks task_id with
      | some t =>
        if t.status = "RUNNING" ∨ t.status = "PENDING" then
          let t' :=
            { t with status := stat
                     completed_at := some now
                     error_details := if stat = "FAILED" then error_details else none }
          ({ st with tasks := setTask st.tasks task_id t' }, true)
        else (st, false)
      | none => (st, false)
    else (st, false)
  else (st, false)

/-- database.py `update_task_result`: unconditional UPDATE of result_data
for the row with the given id (no status condition in the WHERE clause); a
missing row leaves the store unchanged with a logged warning. -/
def update_task_result (st : Store) (task_id : String) (result_data : JValue) : Store :=
  match lookupTask st.tasks task_id with
  | some t =>
    { st with tasks := setTask st.tasks task_id { t with result_data := some result_data } }
  | none => st

/-- The log levels accepted by `add_log_entry` (database.py line 254). -/
def validLevels : List String := ["DEBUG", "INFO", "WARNING", "ERROR", "CRITICAL"]

/-- database.py `add_log_entry`: appends a log row for an existing task;
an invalid level is replaced by INFO; a failed insert (e.g. the foreign key
rejecting an unknown task id) is swallowed without raising, leaving the
store unchanged. -/
def add_log_entry (st : Store) (task_id level message : String) : Store :=
  let lvl := if pyUpper level ∈ validLevels then pyUpper level else "INFO"
  match lookupTask st.tasks task_id with
  | some _ =>
    { st with logs := st.logs ++ [{ task_id := task_id, level := lvl, message := message }] }
  | none => st

/-- database.py `delete_task`: DELETE of the task row; the foreign key
ON DELETE CASCADE removes its log rows.  Returns True iff a row was
deleted. -/
def delete_task (st : Store) (task_id : String) : Store × Bool :=
  match lookupTask st.tasks task_id with
  | some _ =>
    ({ tasks := st.tasks.filter (fun p => p.1 ≠ task_id)
       logs := st.logs.filter (fun l => l.task_id ≠ task_id) }, true)
  | none => (st, false)

/-- database.py `get_task_details`: SELECT of the row with the given id. -/
def get_task_details (st : Store) (task_id : String) : Option TaskRecord :=
  lookupTask st.tasks task_id

end DB

/-- models.py `GeneralTaskRequest`: the schema a submission is validated
against (task_instructions required, at least 10 characters; context_urls
optionally a list of strings each starting with http:// or https://;
agent_config optionally a JSON object). -/
structure GeneralTaskRequest where
  task_instructions : String
  context_urls : Option (List String)
  agent_config : Option (List (String × JValue))

/-- models.py `validate_urls` applied to a JSON value for the context_urls
field: absent or null yields None; a list is accepted only when each item
is a string starting with http:// or https://. -/
def parseUrlsField (v : Option JValue) : Option (Option (List String)) :=
  match v with
  | none => some none
  | some .null => some none
  | some (.arr items) =>
    let rec go : List JValue → Option (List String)
      | [] => some []
      | .str u :: rest =>
        if u.startsWith "http://" || u.startsWith "https://" then
          match go rest with
          | some us => some (u :: us)
          | none => none
        else none
      | _ :: _ => none
    match go items with
    | some us => some (some us)
    | none => none
  | some _ => none

/-- Pydantic parsing of the agent_config field: absent or null yields None;
otherwise the value must be a JSON object. -/
def parseConfigField (v : Option JValue) : Option (Option (List (String × JValue))) :=
  match v with
  | none => some none
  | some .null => some none
  | some (.obj fs) => some (some fs)
  | some _ => none

/-- Pydantic validation `GeneralTaskRequest(**input_data)` on a JSON
object: returns none exactly when validation raises. -/
def parseGeneralTaskRequest (v : JValue) : Option GeneralTaskRequest :=
  match v with
  | .obj fields =>
    match jGet fields "task_instructions" with
    | some (.str ti) =>
      if ti.length ≥ 10 then
        match parseUrlsField (jGet fields "context_urls") with
        | some urls =>
          match parseConfigField (jGet fields "agent_config") with
          | some cfg => some { task_instructions := ti, context_urls := urls, agent_config := cfg }
          | none => none
        | none => none
      else none
    | _ => none
  | _ => none

/-- `request_data.model_dump()`: the dict stored as a task's input_data at
submission (backend_server.py line 339). -/
def dumpRequest (r : GeneralTaskRequest) : JValue :=
  .obj [("task_instructions", .str r.task_instructions),
        ("context_urls",
          match r.context_urls with
          | none => .null
          | some us => .arr (us.map .str)),
        ("agent_config",
          match r.agent_config with
          | none => .null
          | some fs => .obj fs)]

/-- The HTTPException responses the endpoints raise, tagged by status
code class. -/
inductive ApiError where
  | notFound (detail : String)
  | badRequest (detail : String)
  | serverError (detail : String)
deriving DecidableEq, Repr

/-- The HTTP status code of an error response: 404, 400 or 500. -/
def ApiError.statusCode : ApiError → Nat
  | .notFound _ => 404
  | .badRequest _ => 400
  | .serverError _ => 500

/-- An error response is a client error when its status code is in the
4xx range. -/
def ApiError.isClientError (e : ApiError) : Prop :=
  400 ≤ e.statusCode ∧ e.statusCode < 500

instance (e : ApiError) : Decidable e.isClientError := by
  unfold ApiError.isClientError; infer_instance

/-- models.py `StatusResponse`. -/
structure StatusResponse where
  status : String
  message : String
deriving DecidableEq, Repr

/-- models.py `TaskCreationResponse`. -/
structure TaskCreationResponse where
  id : String
  status : String
  message : String
deriving DecidableEq, Repr

/-- models.py `RetryResponse`. -/
structure RetryResponse where
  status : String
  new_task_id : String
  message : String
deriving DecidableEq, Repr

/-- A task_status message broadcast over the WebSocket manager
(backend_server.py, submit_general_task). -/
structure WsEvent where
  etype : String
  task_id : String
  status : String
  content : String
deriving DecidableEq, Repr

namespace Backend

/-- What the submit endpoint produces: the store after the request, the
WebSocket events broadcast while handling it, and the HTTP response. -/
structure SubmitOutcome where
  store : Store
  events : List WsEvent
  response : Except ApiError TaskCreationResponse

/-- backend_server.py `submit_general_task` (POST /tasks/submit), given
the generated task id and the queue enqueue outcome.  Creates a PENDING
row, logs, broadcasts a pending event and enqueues; on any failure the
except branch broadcasts a failed event, rolls the row to FAILED with
explanatory error_details, logs the failure and surfaces a 500 to the
caller. -/
def submit_general_task (st : Store) (task_id : String) (request_data : GeneralTaskRequest)
    (enqueue : Except String Unit) (now : Nat) : SubmitOutcome :=
  let input_data := dumpRequest request_data
  let pendingEvent : WsEvent :=
    { etype := "task_status", task_id := task_id, status := "pending"
      content := "Task " ++ task_id ++ " created and queued" }
  let failedEvent (e : String) : WsEvent :=
    { etype := "task_status", task_id := task_id, status := "failed"
      content := "Task " ++ task_id ++ " submission failed: " ++ e }
  let failPath (st' : Store) (evs : List WsEvent) (e : String) : SubmitOutcome :=
    let st1 := (DB.update_task_status st' task_id "FAILED"
                  (some ("API submission error: " ++ e)) now).1
    let st2 := DB.add_log_entry st1 task_id "ERROR"
                  ("API: Task submission failed: " ++ e ++ ". Marked as FAILED.")
    { store := st2, events := evs ++ [failedEvent e]
      response := .error (.serverError ("Failed to enqueue task: " ++ e)) }
  match DB.create_task st task_id "general_agent_task" input_data now with
  | (st1, false) =>
    -- create_task raised (duplicate id): handled by the same except branch
    failPath st1 [] "duplicate task id"
  | (st1, true) =>
    let st2 := DB.add_log_entry st1 task_id "INFO" "API: Task received and created in DB."
    match enqueue with
    | .error e => failPath st2 [pendingEvent] e
    | .ok _ =>
      let st3 := DB.add_log_entry st2 task_id "INFO"
                   ("API: Task enqueued for worker processing (Job ID: " ++ task_id ++ ").")
      { store := st3, events := [pendingEvent]
        response := .ok { id := task_id, status := "PENDING"
                          message := "Agent task accepted and queued." } }

/-- The four ways the queue interaction inside the RUNNING branch of
cancel_task can go (backend_server.py lines 600-643): the Arq job is found
queued or in progress and the abort signal is sent; the job is found but
already finished (with its Arq status string); the job is not found in
Redis; or interacting with the queue raises. -/
inductive QueueInteraction where
  | aborted : QueueInteraction
  | alreadyFinished (jobStatus : String) : QueueInteraction
  | jobNotFound : QueueInteraction
  | interactError (e : String) : QueueInteraction
deriving DecidableEq, Repr

/-- The error_details written by the RUNNING branch of cancel_task
(backend_server.py lines 646-651): the base message, extended by the abort
error when one occurred, or by the not-aborted note naming the observed
Arq status ("not_found" when the job was missing). -/
def cancelErrDetails : QueueInteraction → String
  | .aborted => "Task cancelled by user request."
  | .interactError e => "Task cancelled by user request." ++ " Abort signal error: " ++ e
  | .alreadyFinished s =>
    "Task cancelled by user request." ++ " Worker may not have received signal (Arq Status: "
      ++ s ++ ")."
  | .jobNotFound =>
    "Task cancelled by user request." ++ " Worker may not have received signal (Arq Status: "
      ++ "not_found" ++ ")."

/-- The log entry the queue interaction itself appends before the forced
terminal write. -/
def queueInteractionLog (task_id : String) : QueueInteraction → LogRecord
  | .aborted =>
    { task_id := task_id, level := "WARNING"
      message := "API: Sent abort signal to worker for task " ++ task_id ++ "." }
  | .alreadyFinished s =>
    { task_id := task_id, level := "WARNING"
      message := "API: Cancel request, but Arq job finished (Status: " ++ s
        ++ "). Treating as already finished." }
  | .jobNotFound =>
    { task_id := task_id, level := "WARNING"
      message := "API: Cancel request, but Arq job " ++ task_id
        ++ " not found. Treating as already finished." }
  | .interactError e =>
    { task_id := task_id, level := "ERROR"
      message := "API: Failed to interact with Arq job " ++ task_id ++ ": " ++ e }

/-- backend_server.py `cancel_task` (POST /tasks/task_id/cancel), given the
queue interaction outcome (consulted only in the RUNNING branch).  A
missing task is a 404; a PENDING task is rolled to FAILED via the
conditional update; a RUNNING task gets the queue interaction and is then
always written FAILED with details describing the interaction outcome; a
terminal task is a 400 naming the current status. -/
def cancel_task (st : Store) (task_id : String) (q : QueueInteraction) (now : Nat) :
    Store × Except ApiError StatusResponse :=
  match lookupTask st.tasks task_id with
  | none => (st, .error (.notFound "Task ID not found"))
  | some t =>
    if t.status = "PENDING" then
      let st1 := (DB.update_task_status st task_id "FAILED"
                    (some "Task cancelled by user before start.") now).1
      let st2 := DB.add_log_entry st1 task_id "WARNING"
                    "Task cancelled by user request (was PENDING)."
      (st2, .ok { status := "cancelled"
                  message := "Task was pending and has been marked as failed." })
    else if t.status = "RUNNING" then
      let lg := queueInteractionLog task_id q
      let st1 := DB.add_log_entry st task_id lg.level lg.message
      let st2 := (DB.update_task_status st1 task_id "FAILED"
                    (some (cancelErrDetails q)) now).1
      let st3 := DB.add_log_entry st2 task_id "WARNING"
                    "Task marked as FAILED due to user cancellation request."
      (st3, .ok { status := "cancellation_requested"
                  message := "Cancellation requested; task marked as failed." })
    else
      (st, .error (.badRequest ("Task cannot be cancelled, status is " ++ t.status ++ ".")))

/-- The retry task id: "retry_" plus 8 fresh uuid4 hex characters plus the
last 8 characters of the original id, Python original[-8:]
(backend_server.py line 724). -/
def retryTaskId (hex8 original : String) : String :=
  "retry_" ++ hex8 ++ "_" ++ ⟨original.data.drop (original.data.length - 8)⟩

/-- backend_server.py `retry_task` (POST /tasks/task_id/retry), given the
fresh uuid hex fragment and the enqueue outcome.  A missing task is a 404;
a non-FAILED task is a 400 naming the status; non-dict input_data is a 500;
input_data failing GeneralTaskRequest validation is a 500; otherwise a new
task seeded with the original input_data is created and enqueued (enqueue
failure rolls the new row to FAILED and surfaces a 500). -/
def retry_task (st : Store) (task_id hex8 : String) (enqueue : Except String Unit)
    (now : Nat) : Store × Except ApiError RetryResponse :=
  match lookupTask st.tasks task_id with
  | none => (st, .error (.notFound "Original task ID not found"))
  | some t =>
    if t.status ≠ "FAILED" then
      (st, .error (.badRequest
        ("Only FAILED tasks can be retried (status: " ++ t.status ++ ").")))
    else
      match t.input_data with
      | .obj fields =>
        match parseGeneralTaskRequest (.obj fields) with
        | none =>
          (st, .error (.serverError
            "Cannot retry task: original input data is incompatible with current format."))
        | some _ =>
          let new_task_id := retryTaskId hex8 task_id
          match DB.create_task st new_task_id t.task_type (.obj fields) now with
          | (st1, false) =>
            -- create_task raised: the except branch rolls the new id to FAILED
            let st2 := (DB.update_task_status st1 new_task_id "FAILED"
                          (some "API retry submission error: duplicate task id") now).1
            (st2, .error (.serverError "Failed to enqueue retry task: duplicate task id"))
          | (st1, true) =>
            let st2 := DB.add_log_entry st1 new_task_id "INFO"
                          ("API: Task created as retry of " ++ task_id ++ ".")
            match enqueue with
            | .error e =>
              let st3 := (DB.update_task_status st2 new_task_id "FAILED"
                            (some ("API retry submission error: " ++ e)) now).1
              let st4 := DB.add_log_entry st3 new_task_id "ERROR"
                            ("API: Retry task submission failed: " ++ e ++ ". Marked as FAILED.")
              (st4, .error (.serverError ("Failed to enqueue retry task: " ++ e)))
            | .ok _ =>
              let st3 := DB.add_log_entry st2 new_task_id "INFO"
                            ("API: Retry task enqueued for worker processing (Job ID: "
                              ++ new_task_id ++ ").")
              (st3, .ok { status := "retry_queued"
                          new_task_id := new_task_id
                          message := "New task " ++ new_task_id
                            ++ " created and queued for retry." })
      | _ =>
        (st, .error (.serverError "Cannot retry task: original input data is invalid."))

/-- backend_server.py `delete_task` (DELETE /tasks/task_id).  A missing
task is a 404; a RUNNING task is a 400 and nothing changes; otherwise the
row and its logs are removed via DB.delete_task (whose False outcome,
impossible when the initial lookup succeeded, would be a 404). -/
def delete_task (st : Store) (task_id : String) : Store × Except ApiError StatusResponse :=
  match lookupTask st.tasks task_id with
  | none => (st, .error (.notFound "Task ID not found"))
  | some t =>
    if t.status = "RUNNING" then
      (st, .error (.badRequest "Cannot delete a RUNNING task. Cancel it first."))
    else
      match DB.delete_task st task_id with
      | (st1, true) =>
        (st1, .ok { status := "deleted"
                    message := "Task " ++ task_id ++ " and its logs have been deleted." })
      | (st1, false) =>
        (st1, .error (.notFound
          "Task found initially but could not be deleted (or was already deleted)."))

end Backend

namespace Worker

/-- How the execution phase of the worker's job handler ends
(worker.py run_task): the agent run returns with a success flag, its
accumulated output and an optional last error; the agent state is missing
after the run; the coroutine receives asyncio.CancelledError; or some other
exception escapes the execution phase. -/
inductive RunOutcome where
  | finished (success : Bool) (output : JValue) (lastError : Option String) : RunOutcome
  | stateMissing : RunOutcome
  | cancelled : RunOutcome
  | crashed (e : String) : RunOutcome

/-- worker.py `run_task` (the Arq job handler), given how the execution
phase ends.  On pickup it logs and performs the conditional PENDING to
RUNNING transition; a normal return records the result payload
unconditionally via update_task_result and then writes COMPLETED or FAILED;
a missing agent state records an error payload and writes FAILED;
asyncio.CancelledError attempts a CANCELLED status write and logs; any
other exception writes FAILED with the captured error. -/
def run_task (st : Store) (task_id : String) (outcome : RunOutcome) (now : Nat) : Store :=
  let st1 := DB.add_log_entry st task_id "INFO" "Worker picked up task."
  let st2 := (DB.update_task_status st1 task_id "RUNNING" none now).1
  match outcome with
  | .finished success output lastError =>
    let resultData : JValue :=
      .obj (("final_output", output) ::
        (match lastError with
         | some e => [("error_details", .str e)]
         | none => []))
    let finalStatus := if success then "COMPLETED" else "FAILED"
    let finalErrorForDb : Option String := if success then none else lastError
    let st3 := DB.update_task_result st2 task_id resultData
    (DB.update_task_status st3 task_id finalStatus finalErrorForDb (now + 1)).1
  | .stateMissing =>
    let msg := "Agent instance or state missing after run."
    let st3 := DB.update_task_result st2 task_id (.obj [("error", .str msg)])
    (DB.update_task_status st3 task_id "FAILED" (some msg) (now + 1)).1
  | .cancelled =>
    let st3 := (DB.update_task_status st2 task_id "CANCELLED"
                  (some "Task cancelled by worker/system.") (now + 1)).1
    DB.add_log_entry st3 task_id "WARNING" "Task marked as CANCELLED."
  | .crashed e =>
    let st3 := (DB.update_task_status st2 task_id "FAILED"
                  (some ("Critical worker task error: " ++ e)) (now + 1)).1
    DB.add_log_entry st3 task_id "CRITICAL" ("Critical worker task error: " ++ e)

end Worker

/-- The primitive task-store mutations every code path goes through: the
five write operations of database.py.  Every endpoint and worker path in
the source is a composition of these (plus pure control flow), so a store
invariant preserved by each of them holds after every transition the
system can perform. -/
inductive Op where
  | create (id ty : String) (input : JValue) (now : Nat) : Op
  | updStatus (id stat : String) (err : Option String) (now : Nat) : Op
  | updResult (id : String) (data : JValue) : Op
  | addLog (id level msg : String) : Op
  | del (id : String) : Op

/-- Applies one primitive store mutation. -/
def applyOp (st : Store) : Op → Store
  | .create id ty input now => (DB.create_task st id ty input now).1
  | .updStatus id stat err now => (DB.update_task_status st id stat err now).1
  | .updResult id data => DB.update_task_result st id data
  | .addLog id level msg => DB.add_log_entry st id level msg
  | .del id => (DB.delete_task st id).1

/-- The stores reachable from the empty store through the database
primitives. -/
inductive Reachable : Store → Prop where
  | init : Reachable emptyStore
  | step (op : Op) {st : Store} : Reachable st → Reachable (applyOp st op)

/-- The record-level invariant maintained by the database layer: the
status is one of the four values the CHECK constraint admits; started_at
being set rules out PENDING; completed_at is set exactly on the terminal
statuses; and a COMPLETED row carries no error_details. -/
def RecordInv (t : TaskRecord) : Prop :=
  (t.status = "PENDING" ∨ t.status = "RUNNING" ∨ t.status = "COMPLETED" ∨ t.status = "FAILED")
  ∧ (t.started_at ≠ none → t.status ≠ "PENDING")
  ∧ (t.completed_at ≠ none ↔ (t.status = "COMPLETED" ∨ t.status = "FAILED"))
  ∧ (t.status = "COMPLETED" → t.error_details = none)

/-- The store-level invariant: every stored row satisfies RecordInv. -/
def StoreInv (st : Store) : Prop :=
  ∀ p ∈ st.tasks, RecordInv p.2

/-!
Concrete example rows and stores, used to evaluate the theorems below on
concrete inputs.
-/

def exInput : JValue := .obj [("task_instructions", .str "go to example.com")]

def exPendingRec : TaskRecord := DB.freshRow "general_agent_task" exInput 0

def exStPending : Store := { tasks := [("t1", exPendingRec)], logs := [] }

def exRunningRec : TaskRecord :=
  { task_type := "general_agent_task", status := "RUNNING", created_at := 0
    started_at := some 1, completed_at := none, input_data := exInput
    result_data := none, error_details := none }

def exStRunning : Store := { tasks := [("t1", exRunningRec)], logs := [] }

def exCompletedRec : TaskRecord :=
  { task_type := "general_agent_task", status := "COMPLETED", created_at := 0
    started_at := some 1, completed_at := some 2, input_data := exInput
    result_data := some (.obj [("final_output", .str "ok")]), error_details := none }

def exStTerminal : Store := { tasks := [("t1", exCompletedRec)], logs := [] }

def exStDelete : Store :=
  { tasks := [("t1", exCompletedRec), ("t2", exRunningRec)]
    logs := [{ task_id := "t1", level := "INFO", message := "first entry" },
             { task_id := "t2", level := "INFO", message := "second entry" }] }

def exBadInputRec : TaskRecord :=
  { task_type := "general_agent_task", status := "FAILED", created_at := 0
    started_at := none, completed_at := some 1
    input_data := .obj [("task_instructions", .str "short")]
    result_data := none, error_details := some "enqueue failed" }

def exStFailedBadInput : Store := { tasks := [("task_abc", exBadInputRec)], logs := [] }

def exFailedRec : TaskRecord :=
  { task_type := "general_agent_task", status := "FAILED", created_at := 0
    started_at := some 1, completed_at := some 2, input_data := exInput
    result_data := none, error_details := some "agent failure" }

def exStFailed : Store := { tasks := [("task_original1", exFailedRec)], logs := [] }

def exReq : GeneralTaskRequest :=
  { task_instructions := "go to example.com", context_urls := none, agent_config := none }

def exOps1 : Store :=
  applyOp (applyOp emptyStore (.create "t1" "general_agent_task" exInput 0))
    (.updStatus "t1" "CANCELLED" (some "cancel attempt") 1)

def exOps2 : Store :=
  applyOp (applyOp (applyOp emptyStore (.create "t2" "general_agent_task" exInput 0))
    (.updStatus "t2" "RUNNING" none 1)) (.updStatus "t2" "COMPLETED" none 2)

def exOps2Rec : TaskRecord :=
  { task_type := "general_agent_task", status := "COMPLETED", created_at := 0
    started_at := some 1, completed_at := some 2, input_data := exInput
    result_data := none, error_details := none }

/-!
Helper lemmas about the store representation, shared by the claim
theorems below.
-/

theorem lookupTask_set_self (ts : List (String × TaskRecord)) (id : String)
    (t t' : TaskRecord) (h : lookupTask ts id = some t) :
    lookupTask (setTask ts id t') id = some t' := by
  induction ts with
  | nil => simp [lookupTask] at h
  | cons p rest ih =>
    obtain ⟨k, t0⟩ := p
    by_cases hk : k = id
    · simp [lookupTask, setTask, hk]
    · simp [lookupTask, setTask, hk] at h ⊢
      exact ih h

theorem mem_setTask (ts : List (String × TaskRecord)) (id : String)
    (t' : TaskRecord) (p : String × TaskRecord) (h : p ∈ setTask ts id t') :
    p ∈ ts ∨ p = (id, t') := by
  induction ts with
  | nil => simp [setTask] at h
  | cons q rest ih =>
    obtain ⟨k, t0⟩ := q
    by_cases hk : k = id
    · simp [setTask, hk] at h
      rcases h with h | h
      · right; rw [h]
      · left; simp [h]
    · simp [setTask, hk] at h
      rcases h with h | h
      · left; simp [h]
      · rcases ih h with h' | h'
        · left; simp [h']
        · right; exact h'

theorem lookupTask_mem (ts : List (String × TaskRecord)) (id : String)
    (t : TaskRecord) (h : lookupTask ts id = some t) : (id, t) ∈ ts := by
  induction ts with
  | nil => simp [lookupTask] at h
  | cons q rest ih =>
    obtain ⟨k, t0⟩ := q
    by_cases hk : k = id
    · simp [lookupTask, hk] at h
      rw [hk, h]
      exact List.mem_cons_self _ _
    · simp [lookupTask, hk] at h
      exact List.mem_cons_of_mem _ (ih h)

theorem lookupTask_filter_ne (ts : List (String × TaskRecord)) (id : String) :
    lookupTask (ts.filter (fun p => p.1 ≠ id)) id = none := by
  induction ts with
  | nil => simp [lookupTask]
  | cons q rest ih =>
    obtain ⟨k, t0⟩ := q
    by_cases hk : k = id
    · simpa [List.filter, hk] using ih
    · simpa [List.filter, hk, lookupTask] using ih

theorem DB.add_log_entry_tasks (st : Store) (task_id level message : String) :
    (add_log_entry st task_id level message).tasks = st.tasks := by
  unfold add_log_entry
  cases lookupTask st.tasks task_id <;> simp

theorem storeInv_empty : StoreInv emptyStore := by
  intro p hp
  simp [emptyStore] at hp

theorem storeInv_applyOp (st : Store) (op : Op) (h : StoreInv st) :
    StoreInv (applyOp st op) := by
  cases op with
  | create id ty input now =>
    intro p hp
    simp only [applyOp, DB.create_task] at hp
    split at hp
    · exact h p (by simpa using hp)
    · simp at hp
      rcases hp with hp | hp
      · rw [hp]
        exact ⟨by simp [DB.freshRow], by simp [DB.freshRow], by simp [DB.freshRow],
               by simp [DB.freshRow]⟩
      · exact h p hp
  | updStatus id stat err now =>
    intro p hp
    simp only [applyOp, DB.update_task_status] at hp
    split at hp
    case isFalse => exact h p (by simpa using hp)
    case isTrue hup =>
      split at hp
      case isTrue hrun =>
        split at hp
        case h_2 => exact h p (by simpa using hp)
        case h_1 t heq =>
          split at hp
          case isFalse => exact h p (by simpa using hp)
          case isTrue hpend =>
            simp at hp
            rcases mem_setTask _ _ _ _ hp with hm | hm
            · exact h p hm
            · rw [hm]
              have ht := h _ (lookupTask_mem _ _ _ heq)
              have hc : t.completed_at = none := by
                by_contra hne
                have hterm := ht.2.2.1.mp hne
                rw [hpend] at hterm
                simp at hterm
              exact ⟨by simp, by simp, by simp [hc], by simp⟩
      case isFalse hrun =>
        split at hp
        case isFalse => exact h p (by simpa using hp)
        case isTrue hterm =>
          split at hp
          case h_2 => exact h p (by simpa using hp)
          case h_1 t heq =>
            split at hp
            case isFalse => exact h p (by simpa using hp)
            case isTrue hpre =>
              simp at hp
              rcases mem_setTask _ _ _ _ hp with hm | hm
              · exact h p hm
              · rw [hm]
                rcases hterm with hc | hf
                · exact ⟨by simp [hc], by simp [hc], by simp [hc], by simp [hc]⟩
                · exact ⟨by simp [hf], by simp [hf], by simp [hf],
                         by intro hcon; rw [hf] at hcon; simp at hcon⟩
  | updResult id data =>
    intro p hp
    simp only [applyOp, DB.update_task_result] at hp
    split at hp
    case h_2 => exact h p hp
    case h_1 t heq =>
      simp at hp
      rcases mem_setTask _ _ _ _ hp with hm | hm
      · exact h p hm
      · rw [hm]
        have ht := h _ (lookupTask_mem _ _ _ heq)
        exact ⟨by simpa using ht.1, by simpa using ht.2.1,
               by simpa using ht.2.2.1, by simpa using ht.2.2.2⟩
  | addLog id level msg =>
    intro p hp
    simp only [applyOp] at hp
    rw [DB.add_log_entry_tasks] at hp
    exact h p hp
  | del id =>
    intro p hp
    simp only [applyOp, DB.delete_task] at hp
    split at hp
    case h_2 => exact h p (by simpa using hp)
    case h_1 t heq =>
      simp at hp
      exact h p hp.1

theorem storeInv_reachable (st : Store) (h : Reachable st) : StoreInv st := by
  induction h with
  | init => exact storeInv_empty
  | step op _ ih => exact storeInv_applyOp _ op ih

theorem DB.update_running_snd_iff (st : Store) (id : String) (t : TaskRecord)
    (e : Option String) (now : Nat) (h : lookupTask st.tasks id = some t) :
    ((DB.update_task_status st id "RUNNING" e now).2 = true ↔ t.status = "PENDING") := by
  unfold DB.update_task_status
  rw [if_pos (by decide : pyUpper "RUNNING" ∈ DB.allowedStatuses),
      if_pos (rfl : ("RUNNING" : String) = "RUNNING"), h]
  by_cases hpend : t.status = "PENDING" <;> simp [hpend]

theorem DB.update_terminal_snd_iff (st : Store) (id : String) (t : TaskRecord)
    (s : String) (hs : s = "COMPLETED" ∨ s = "FAILED")
    (e : Option String) (now : Nat) (h : lookupTask st.tasks id = some t) :
    ((DB.update_task_status st id s e now).2 = true ↔
      (t.status = "RUNNING" ∨ t.status = "PENDING")) := by
  rcases hs with hs | hs
  · subst hs
    unfold DB.update_task_status
    rw [if_pos (by decide : pyUpper "COMPLETED" ∈ DB.allowedStatuses),
        if_neg (by decide : ¬ ("COMPLETED" : String) = "RUNNING"),
        if_pos (Or.inl rfl :
          ("COMPLETED" : String) = "COMPLETED" ∨ ("COMPLETED" : String) = "FAILED"), h]
    by_cases hpre : t.status = "RUNNING" ∨ t.status = "PENDING" <;> simp [hpre]
  · subst hs
    unfold DB.update_task_status
    rw [if_pos (by decide : pyUpper "FAILED" ∈ DB.allowedStatuses),
        if_neg (by decide : ¬ ("FAILED" : String) = "RUNNING"),
        if_pos (Or.inr rfl :
          ("FAILED" : String) = "COMPLETED" ∨ ("FAILED" : String) = "FAILED"), h]
    by_cases hpre : t.status = "RUNNING" ∨ t.status = "PENDING" <;> simp [hpre]

theorem DB.update_failed_writes (st : Store) (id : String) (t : TaskRecord)
    (e : Option String) (now : Nat) (h : lookupTask st.tasks id = some t)
    (hpre : t.status = "RUNNING" ∨ t.status = "PENDING") :
    DB.update_task_status st id "FAILED" e now =
      ({ st with tasks := (setTask st.tasks id
          { t with status := "FAILED", completed_at := some now, error_details := e }) }, true) := by
  unfold DB.update_task_status
  rw [if_pos (by decide : pyUpper "FAILED" ∈ DB.allowedStatuses),
      if_neg (by decide : ¬ ("FAILED" : String) = "RUNNING"),
      if_pos (Or.inr rfl :
        ("FAILED" : String) = "COMPLETED" ∨ ("FAILED" : String) = "FAILED"), h]
  simp [hpre]

theorem DB.lookup_update_failed (st : Store) (id : String) (t : TaskRecord)
    (e : Option String) (now : Nat) (h : lookupTask st.tasks id = some t)
    (hpre : t.status = "RUNNING" ∨ t.status = "PENDING") :
    lookupTask (DB.update_task_status st id "FAILED" e now).1.tasks id =
      some { t with status := "FAILED", completed_at := some now, error_details := e } := by
  rw [DB.update_failed_writes st id t e now h hpre]
  exact lookupTask_set_self _ _ _ _ h

theorem DB.update_status_terminal_noop (st : Store) (id : String) (t : TaskRecord)
    (s : String) (e : Option String) (now : Nat)
    (h : lookupTask st.tasks id = some t)
    (hterm : t.status = "COMPLETED" ∨ t.status = "FAILED") :
    DB.update_task_status st id s e now = (st, false) := by
  have h1 : ¬ t.status = "PENDING" := by
    rcases hterm with h2 | h2 <;> rw [h2] <;> decide
  have h2 : ¬ (t.status = "RUNNING" ∨ t.status = "PENDING") := by
    rcases hterm with h3 | h3 <;> rw [h3] <;> decide
  unfold DB.update_task_status
  split
  · split
    · rw [h]
      simp [h1]
    · split
      · rw [h]
        simp [h2]
      · rfl
  · rfl

theorem parse_some_obj (v : JValue) (r : GeneralTaskRequest)
    (h : parseGeneralTaskRequest v = some r) : ∃ fields, v = .obj fields := by
  cases v with
  | obj fields => exact ⟨fields, rfl⟩
  | null => simp [parseGeneralTaskRequest] at h
  | bool b => simp [parseGeneralTaskRequest] at h
  | num n => simp [parseGeneralTaskRequest] at h
  | str s => simp [parseGeneralTaskRequest] at h
  | arr xs => simp [parseGeneralTaskRequest] at h

/-- C1: update_task_status linearizes transitions by conditional updates:
a RUNNING write succeeds exactly when the row is currently PENDING, a
COMPLETED or FAILED write succeeds exactly when the row is currently
RUNNING or PENDING, and a task already in a terminal status (COMPLETED or
FAILED) is left entirely unchanged by any later call, which returns False
(a zero-row conditional update; the source logs a warning and does not
raise, which the totality of the embedded function models). -/
theorem update_task_status_linearizes (st : Store) (id : String) (t : TaskRecord)
    (e : Option String) (now : Nat) (h : lookupTask st.tasks id = some t) :
    ((DB.update_task_status st id "RUNNING" e now).2 = true ↔ t.status = "PENDING")
    ∧ (∀ s, s = "COMPLETED" ∨ s = "FAILED" →
        ((DB.update_task_status st id s e now).2 = true ↔
          (t.status = "RUNNING" ∨ t.status = "PENDING")))
    ∧ ((t.status = "COMPLETED" ∨ t.status = "FAILED") →
        ∀ s e', DB.update_task_status st id s e' now = (st, false)) :=
  ⟨DB.update_running_snd_iff st id t e now h,
   fun s hs => DB.update_terminal_snd_iff st id t s hs e now h,
   fun hterm s e' => DB.update_status_terminal_noop st id t s e' now h hterm⟩

/-- C1 witness: a COMPLETED task is untouched by a later FAILED write,
which affects zero rows and returns False. -/
theorem update_task_status_linearizes_witness :
    DB.update_task_status exStTerminal "t1" "FAILED" (some "late write") 9 =
      (exStTerminal, false) :=
  (update_task_status_linearizes exStTerminal "t1" exCompletedRec none 9 rfl).2.2
    (Or.inl rfl) "FAILED" (some "late write")

/-- C2: cancelling a RUNNING task always converges to a FAILED row with
error_details describing the queue interaction outcome, whatever that
outcome is (abort acknowledged, job already finished, job not found, or a
queue error), and the endpoint reports the cancellation request. -/
theorem cancel_running_converges_failed (st : Store) (id : String) (t : TaskRecord)
    (q : Backend.QueueInteraction) (now : Nat)
    (h : lookupTask st.tasks id = some t) (hr : t.status = "RUNNING") :
    lookupTask (Backend.cancel_task st id q now).1.tasks id =
      some { t with status := "FAILED", completed_at := some now,
                    error_details := some (Backend.cancelErrDetails q) }
    ∧ (Backend.cancel_task st id q now).2 =
        .ok { status := "cancellation_requested",
              message := "Cancellation requested; task marked as failed." } := by
  have hnp : ¬ t.status = "PENDING" := by rw [hr]; decide
  have hA : lookupTask (DB.add_log_entry st id (Backend.queueInteractionLog id q).level
      (Backend.queueInteractionLog id q).message).tasks id = some t := by
    rw [DB.add_log_entry_tasks]; exact h
  constructor
  · simp only [Backend.cancel_task, h]
    rw [if_neg hnp, if_pos hr]
    simp only [DB.add_log_entry_tasks]
    exact DB.lookup_update_failed _ id t (some (Backend.cancelErrDetails q)) now hA (Or.inl hr)
  · simp only [Backend.cancel_task, h]
    rw [if_neg hnp, if_pos hr]

/-- C2 witness: a RUNNING task cancelled while the queue interaction
raises still ends FAILED with the abort error recorded. -/
theorem cancel_running_converges_failed_witness :
    lookupTask (Backend.cancel_task exStRunning "t1" (.interactError "redis timeout") 5).1.tasks "t1" =
      some { exRunningRec with
              status := "FAILED", completed_at := some 5,
              error_details := some (Backend.cancelErrDetails (.interactError "redis timeout")) }
    ∧ (Backend.cancel_task exStRunning "t1" (.interactError "redis timeout") 5).2 =
        .ok { status := "cancellation_requested",
              message := "Cancellation requested; task marked as failed." } :=
  cancel_running_converges_failed exStRunning "t1" exRunningRec
    (.interactError "redis timeout") 5 rfl rfl

/-- C3 (code-bug evidence): when the job handler receives a cancellation,
the worker calls update_task_status with CANCELLED and logs that the task
was marked CANCELLED, but update_task_status rejects CANCELLED as an
invalid status, so the stored status stays RUNNING and never becomes
CANCELLED. -/
theorem worker_cancellation_leaves_running :
    (lookupTask (Worker.run_task exStPending "t1" .cancelled 1).tasks "t1").map TaskRecord.status
      = some "RUNNING"
    ∧ ({ task_id := "t1", level := "WARNING",
         message := "Task marked as CANCELLED." } : LogRecord)
        ∈ (Worker.run_task exStPending "t1" .cancelled 1).logs := by
  exact ⟨rfl, by decide⟩

/-- C4 counterexample: cancelling a PENDING task moves it straight to
FAILED without ever setting started_at, so the row has a non-PENDING
status with started_at still null, refuting the claimed iff. -/
theorem cancelled_pending_has_null_started_at :
    (lookupTask (Backend.cancel_task exStPending "t1" .jobNotFound 3).1.tasks "t1").map
        TaskRecord.status = some "FAILED"
    ∧ (lookupTask (Backend.cancel_task exStPending "t1" .jobNotFound 3).1.tasks "t1").map
        TaskRecord.started_at = some none := by
  exact ⟨rfl, rfl⟩

/-- C4 (amended): after every transition, completed_at is non-null exactly
on the terminal statuses, and a non-null started_at implies the status has
left PENDING; the converse of the started_at direction fails, because the
direct PENDING-to-FAILED writes used by cancellation and by the
enqueue-failure rollback never set started_at. -/
theorem timestamp_invariant_amended (st : Store) (h : Reachable st) :
    ∀ id t, lookupTask st.tasks id = some t →
      (t.started_at ≠ none → t.status ≠ "PENDING")
      ∧ (t.completed_at ≠ none ↔ (t.status = "COMPLETED" ∨ t.status = "FAILED")) := by
  intro id t hl
  have hi := storeInv_reachable st h _ (lookupTask_mem _ _ _ hl)
  exact ⟨hi.2.1, hi.2.2.1⟩

/-- C4 witness: the invariant evaluated on a store reached by create,
pickup and completion. -/
theorem timestamp_invariant_amended_witness :
    (exOps2Rec.started_at ≠ none → exOps2Rec.status ≠ "PENDING")
    ∧ (exOps2Rec.completed_at ≠ none ↔
        (exOps2Rec.status = "COMPLETED" ∨ exOps2Rec.status = "FAILED")) :=
  timestamp_invariant_amended exOps2
    (Reachable.step _ (Reachable.step _ (Reachable.step _ Reachable.init)))
    "t2" exOps2Rec rfl

/-- C5 counterexample: after the worker records a failed run's outcome,
the row is FAILED yet carries both result_data and error_details, so
result_data and error_details are not mutually exclusive on FAILED
tasks. -/
theorem failed_run_carries_result_data :
    (lookupTask (Worker.run_task exStPending "t1"
        (.finished false (.str "half done") (some "boom")) 1).tasks "t1").map
        TaskRecord.status = some "FAILED"
    ∧ (lookupTask (Worker.run_task exStPending "t1"
        (.finished false (.str "half done") (some "boom")) 1).tasks "t1").map
        (fun t => t.result_data.isSome) = some true
    ∧ (lookupTask (Worker.run_task exStPending "t1"
        (.finished false (.str "half done") (some "boom")) 1).tasks "t1").map
        TaskRecord.error_details = some (some "boom") := by
  exact ⟨rfl, rfl, rfl⟩

/-- C5 (amended): a COMPLETED task never carries error_details, because
the COMPLETED transition clears them; but a FAILED task can carry
result_data, because the worker stores the run's result payload through
the unconditional update_task_result before writing the terminal
status. -/
theorem completed_never_carries_error_details (st : Store) (h : Reachable st) :
    ∀ id t, lookupTask st.tasks id = some t → t.status = "COMPLETED" →
      t.error_details = none := by
  intro id t hl hc
  exact (storeInv_reachable st h _ (lookupTask_mem _ _ _ hl)).2.2.2 hc

/-- C5 witness: the amended invariant evaluated on a completed task of a
reachable store. -/
theorem completed_never_carries_error_details_witness :
    exOps2Rec.error_details = none :=
  completed_never_carries_error_details exOps2
    (Reachable.step _ (Reachable.step _ (Reachable.step _ Reachable.init)))
    "t2" exOps2Rec rfl rfl

theorem DB.add_log_entry_mem (st : Store) (id level msg : String) (t : TaskRecord)
    (h : lookupTask st.tasks id = some t)
    (hlv : pyUpper level ∈ DB.validLevels) :
    ({ task_id := id, level := pyUpper level, message := msg } : LogRecord)
      ∈ (DB.add_log_entry st id level msg).logs := by
  unfold DB.add_log_entry
  rw [h]
  simp [hlv]

/-- C6: when the submit endpoint has created the task row and the enqueue
then fails, the row is rolled to FAILED with explanatory error_details
(so no row is left PENDING for a job never queued), the failure is
logged, a failed event is broadcast, and the error is surfaced to the
caller as a 500. -/
theorem submit_enqueue_failure_never_leaves_pending (st : Store) (id : String)
    (req : GeneralTaskRequest) (e : String) (now : Nat)
    (hfresh : lookupTask st.tasks id = none) :
    (Backend.submit_general_task st id req (.error e) now).response =
      .error (.serverError ("Failed to enqueue task: " ++ e))
    ∧ lookupTask (Backend.submit_general_task st id req (.error e) now).store.tasks id =
        some { DB.freshRow "general_agent_task" (dumpRequest req) now with
                status := "FAILED", completed_at := some now,
                error_details := some ("API submission error: " ++ e) }
    ∧ ({ etype := "task_status", task_id := id, status := "failed",
         content := "Task " ++ id ++ " submission failed: " ++ e } : WsEvent)
        ∈ (Backend.submit_general_task st id req (.error e) now).events
    ∧ ({ task_id := id, level := "ERROR",
         message := "API: Task submission failed: " ++ e ++ ". Marked as FAILED." } : LogRecord)
        ∈ (Backend.submit_general_task st id req (.error e) now).store.logs := by
  have hcreate : DB.create_task st id "general_agent_task" (dumpRequest req) now =
      ({ st with tasks :=
          (id, DB.freshRow "general_agent_task" (dumpRequest req) now) :: st.tasks }, true) := by
    unfold DB.create_task
    rw [hfresh]
  have hrow : lookupTask
      ((id, DB.freshRow "general_agent_task" (dumpRequest req) now) :: st.tasks) id
      = some (DB.freshRow "general_agent_task" (dumpRequest req) now) := by
    simp [lookupTask]
  have hA : lookupTask (DB.add_log_entry
      { st with tasks :=
          (id, DB.freshRow "general_agent_task" (dumpRequest req) now) :: st.tasks }
      id "INFO" "API: Task received and created in DB.").tasks id
      = some (DB.freshRow "general_agent_task" (dumpRequest req) now) := by
    rw [DB.add_log_entry_tasks]; exact hrow
  have hupd := DB.lookup_update_failed _ id
    (DB.freshRow "general_agent_task" (dumpRequest req) now)
    (some ("API submission error: " ++ e)) now hA (Or.inr rfl)
  refine ⟨?_, ?_, ?_, ?_⟩
  · simp only [Backend.submit_general_task, hcreate]
  · simp only [Backend.submit_general_task, hcreate]
    simp only [DB.add_log_entry_tasks]
    exact hupd
  · simp only [Backend.submit_general_task, hcreate]
    simp
  · simp only [Backend.submit_general_task, hcreate]
    exact DB.add_log_entry_mem _ id "ERROR"
      ("API: Task submission failed: " ++ e ++ ". Marked as FAILED.") _ hupd (by decide)

/-- C6 witness: a fresh submission whose enqueue fails ends FAILED, not
PENDING, and the caller receives the error. -/
theorem submit_enqueue_failure_never_leaves_pending_witness :
    (Backend.submit_general_task emptyStore "task_w6" exReq (.error "redis down") 0).response =
      .error (.serverError ("Failed to enqueue task: " ++ "redis down"))
    ∧ lookupTask (Backend.submit_general_task emptyStore "task_w6" exReq
        (.error "redis down") 0).store.tasks "task_w6" =
        some { DB.freshRow "general_agent_task" (dumpRequest exReq) 0 with
                status := "FAILED", completed_at := some 0,
                error_details := some ("API submission error: " ++ "redis down") } :=
  ⟨(submit_enqueue_failure_never_leaves_pending emptyStore "task_w6" exReq "redis down" 0 rfl).1,
   (submit_enqueue_failure_never_leaves_pending emptyStore "task_w6" exReq "redis down" 0 rfl).2.1⟩

/-- C7 counterexample: the terminal write performed by the PENDING-cancel
path, applied to a row a concurrent worker pickup has already moved to
RUNNING, succeeds and overwrites the RUNNING row to FAILED, so the write
is not conditioned on the row still being PENDING. -/
theorem cancel_pending_write_clobbers_running :
    (DB.update_task_status exStRunning "t1" "FAILED"
        (some "Task cancelled by user before start.") 4).2 = true
    ∧ (lookupTask (DB.update_task_status exStRunning "t1" "FAILED"
        (some "Task cancelled by user before start.") 4).1.tasks "t1").map
        TaskRecord.status = some "FAILED" := by
  exact ⟨rfl, rfl⟩

/-- C7 (amended): cancel of a PENDING task does reach a terminal FAILED
state, but its conditional terminal write accepts both PENDING and
RUNNING as prior states, so a row a concurrent worker pickup has moved to
RUNNING is clobbered rather than protected; only rows already terminal
are left untouched. -/
theorem cancel_pending_cas_admits_running (st : Store) (id : String) (t : TaskRecord)
    (now : Nat) (h : lookupTask st.tasks id = some t) :
    (t.status = "PENDING" → ∀ q,
      (lookupTask (Backend.cancel_task st id q now).1.tasks id).map TaskRecord.status
        = some "FAILED")
    ∧ ((DB.update_task_status st id "FAILED"
          (some "Task cancelled by user before start.") now).2 = true
        ↔ (t.status = "RUNNING" ∨ t.status = "PENDING")) := by
  constructor
  · intro hpend q
    simp only [Backend.cancel_task, h]
    rw [if_pos hpend]
    simp only [DB.add_log_entry_tasks]
    rw [DB.lookup_update_failed st id t
      (some "Task cancelled by user before start.") now h (Or.inr hpend)]
    rfl
  · exact DB.update_terminal_snd_iff st id t "FAILED" (Or.inr rfl)
      (some "Task cancelled by user before start.") now h

/-- C7 witness: a PENDING cancel reaches FAILED, and the conditional
write's acceptance condition evaluated on the PENDING row. -/
theorem cancel_pending_cas_admits_running_witness :
    (lookupTask (Backend.cancel_task exStPending "t1" .aborted 3).1.tasks "t1").map
        TaskRecord.status = some "FAILED"
    ∧ ((DB.update_task_status exStPending "t1" "FAILED"
          (some "Task cancelled by user before start.") 3).2 = true
        ↔ (exPendingRec.status = "RUNNING" ∨ exPendingRec.status = "PENDING")) :=
  ⟨(cancel_pending_cas_admits_running exStPending "t1" exPendingRec 3 rfl).1 rfl .aborted,
   (cancel_pending_cas_admits_running exStPending "t1" exPendingRec 3 rfl).2⟩

/-- C8 counterexample: retry of a FAILED task whose stored input_data no
longer validates against the submission schema is rejected with HTTP 500,
a server error, not a client error; no new task is created. -/
theorem retry_incompatible_input_rejected_with_500 :
    (Backend.retry_task exStFailedBadInput "task_abc" "deadbeef" (.ok ()) 2).2 =
      .error (.serverError
        "Cannot retry task: original input data is incompatible with current format.")
    ∧ (ApiError.serverError
        "Cannot retry task: original input data is incompatible with current format.").statusCode
        = 500
    ∧ ¬ (ApiError.serverError
        "Cannot retry task: original input data is incompatible with current format.").isClientError
    ∧ (Backend.retry_task exStFailedBadInput "task_abc" "deadbeef" (.ok ()) 2).1.tasks.length
        = 1 := by
  exact ⟨rfl, rfl, by decide, rfl⟩

/-- C8 (amended): retry is permitted only when the source task is FAILED,
any other status being rejected with a 400 client error naming it; the
original input_data is re-validated against the submission schema before
any new task is created, with incompatible input rejected with a 500
server error (not a client error as the spec says); a successful retry
creates a new task, with an id distinct from the original, seeded with
the original input_data. -/
theorem retry_task_spec (st : Store) (id hex8 : String) (t : TaskRecord) (now : Nat)
    (h : lookupTask st.tasks id = some t) :
    (t.status ≠ "FAILED" →
      Backend.retry_task st id hex8 (.ok ()) now =
        (st, .error (.badRequest
          ("Only FAILED tasks can be retried (status: " ++ t.status ++ ")."))))
    ∧ (t.status = "FAILED" → parseGeneralTaskRequest t.input_data = none →
        ∃ msg, Backend.retry_task st id hex8 (.ok ()) now = (st, .error (.serverError msg)))
    ∧ (∀ r, t.status = "FAILED" → parseGeneralTaskRequest t.input_data = some r →
        lookupTask st.tasks (Backend.retryTaskId hex8 id) = none →
        (Backend.retry_task st id hex8 (.ok ()) now).2 =
          .ok { status := "retry_queued", new_task_id := Backend.retryTaskId hex8 id,
                message := "New task " ++ Backend.retryTaskId hex8 id
                  ++ " created and queued for retry." }
        ∧ Backend.retryTaskId hex8 id ≠ id
        ∧ lookupTask (Backend.retry_task st id hex8 (.ok ()) now).1.tasks
            (Backend.retryTaskId hex8 id) =
            some (DB.freshRow t.task_type t.input_data now)) := by
  refine ⟨?_, ?_, ?_⟩
  · intro hns
    simp only [Backend.retry_task, h]
    rw [if_pos hns]
  · intro hs hparse
    have hnn : ¬ (t.status ≠ "FAILED") := by simp [hs]
    cases hv : t.input_data with
    | obj fields =>
      refine ⟨"Cannot retry task: original input data is incompatible with current format.", ?_⟩
      rw [hv] at hparse
      simp only [Backend.retry_task, h]
      rw [if_neg hnn]
      simp only [hv, hparse]
    | null =>
      refine ⟨"Cannot retry task: original input data is invalid.", ?_⟩
      simp only [Backend.retry_task, h]
      rw [if_neg hnn]
      simp only [hv]
    | bool b =>
      refine ⟨"Cannot retry task: original input data is invalid.", ?_⟩
      simp only [Backend.retry_task, h]
      rw [if_neg hnn]
      simp only [hv]
    | num n =>
      refine ⟨"Cannot retry task: original input data is invalid.", ?_⟩
      simp only [Backend.retry_task, h]
      rw [if_neg hnn]
      simp only [hv]
    | str s2 =>
      refine ⟨"Cannot retry task: original input data is invalid.", ?_⟩
      simp only [Backend.retry_task, h]
      rw [if_neg hnn]
      simp only [hv]
    | arr items =>
      refine ⟨"Cannot retry task: original input data is invalid.", ?_⟩
      simp only [Backend.retry_task, h]
      rw [if_neg hnn]
      simp only [hv]
  · intro r hs hparse hfresh
    have hnn : ¬ (t.status ≠ "FAILED") := by simp [hs]
    obtain ⟨fields, hv⟩ := parse_some_obj _ _ hparse
    rw [hv] at hparse
    have hne : Backend.retryTaskId hex8 id ≠ id := by
      intro hcon
      rw [hcon, h] at hfresh
      exact Option.noConfusion hfresh
    have hcreate : DB.create_task st (Backend.retryTaskId hex8 id) t.task_type
        (.obj fields) now =
        ({ st with tasks := (Backend.retryTaskId hex8 id,
            DB.freshRow t.task_type (.obj fields) now) :: st.tasks }, true) := by
      unfold DB.create_task
      rw [hfresh]
    refine ⟨?_, hne, ?_⟩
    · simp only [Backend.retry_task, h]
      rw [if_neg hnn]
      simp only [hv, hparse, hcreate]
    · simp only [Backend.retry_task, h]
      rw [if_neg hnn]
      simp only [hv, hparse, hcreate]
      simp only [DB.add_log_entry_tasks]
      simp [lookupTask]

/-- C8 witness: a FAILED task with schema-valid input_data is retried
into a fresh task with a distinct id seeded with the same input. -/
theorem retry_task_spec_witness :
    (Backend.retry_task exStFailed "task_original1" "abcd1234" (.ok ()) 5).2 =
      .ok { status := "retry_queued",
            new_task_id := Backend.retryTaskId "abcd1234" "task_original1",
            message := "New task " ++ Backend.retryTaskId "abcd1234" "task_original1"
              ++ " created and queued for retry." }
    ∧ Backend.retryTaskId "abcd1234" "task_original1" ≠ "task_original1"
    ∧ lookupTask (Backend.retry_task exStFailed "task_original1" "abcd1234" (.ok ()) 5).1.tasks
        (Backend.retryTaskId "abcd1234" "task_original1") =
        some (DB.freshRow exFailedRec.task_type exFailedRec.input_data 5) :=
  (retry_task_spec exStFailed "task_original1" "abcd1234" exFailedRec 5 rfl).2.2
    { task_instructions := "go to example.com", context_urls := none, agent_config := none }
    rfl rfl rfl

/-- C9: delete of a RUNNING task is rejected with a 400 client error and
nothing changes; delete of any existing non-RUNNING task removes the row
and, by cascade, every one of its log entries, after which a lookup of
that id reports not found. -/
theorem delete_task_endpoint_spec (st : Store) (id : String) (t : TaskRecord)
    (h : lookupTask st.tasks id = some t) :
    (t.status = "RUNNING" →
      Backend.delete_task st id =
        (st, .error (.badRequest "Cannot delete a RUNNING task. Cancel it first.")))
    ∧ (t.status ≠ "RUNNING" →
        (Backend.delete_task st id).2 =
          .ok { status := "deleted",
                message := "Task " ++ id ++ " and its logs have been deleted." }
        ∧ DB.get_task_details (Backend.delete_task st id).1 id = none
        ∧ ∀ l ∈ (Backend.delete_task st id).1.logs, l.task_id ≠ id) := by
  constructor
  · intro hrun
    simp only [Backend.delete_task, h]
    rw [if_pos hrun]
  · intro hrun
    have hdel : DB.delete_task st id =
        ({ tasks := st.tasks.filter (fun p => p.1 ≠ id)
           logs := st.logs.filter (fun l => l.task_id ≠ id) }, true) := by
      unfold DB.delete_task
      rw [h]
    refine ⟨?_, ?_, ?_⟩
    · simp only [Backend.delete_task, h]
      rw [if_neg hrun]
      simp only [hdel]
    · simp only [Backend.delete_task, h]
      rw [if_neg hrun]
      simp only [hdel, DB.get_task_details]
      exact lookupTask_filter_ne st.tasks id
    · simp only [Backend.delete_task, h]
      rw [if_neg hrun]
      simp only [hdel]
      intro l hl
      exact of_decide_eq_true (List.mem_filter.mp hl).2

/-- C9 witness: deleting a COMPLETED task succeeds and afterwards the task
is gone. -/
theorem delete_task_endpoint_spec_witness :
    (Backend.delete_task exStDelete "t1").2 =
      .ok { status := "deleted",
            message := "Task " ++ "t1" ++ " and its logs have been deleted." }
    ∧ DB.get_task_details (Backend.delete_task exStDelete "t1").1 "t1" = none :=
  ⟨((delete_task_endpoint_spec exStDelete "t1" exCompletedRec rfl).2 (by decide)).1,
   ((delete_task_endpoint_spec exStDelete "t1" exCompletedRec rfl).2 (by decide)).2.1⟩

/-- C10: every status ever persisted through the database primitives is
one of the four values the schema CHECK constraint admits (PENDING,
RUNNING, COMPLETED, FAILED), no stored status is ever CANCELLED, and
update_task_status called with any status outside the four (CANCELLED
included) returns False and leaves the store unchanged. -/
theorem persisted_status_always_allowed (st : Store) (h : Reachable st) :
    (∀ id t, lookupTask st.tasks id = some t → t.status ∈ DB.allowedStatuses)
    ∧ (∀ id t, lookupTask st.tasks id = some t → t.status ≠ "CANCELLED")
    ∧ (∀ st' id s e now, s ∉ DB.allowedStatuses →
        DB.update_task_status st' id s e now = (st', false)) := by
  have hfour : ∀ id t, lookupTask st.tasks id = some t → t.status ∈ DB.allowedStatuses := by
    intro id t hl
    have hi : RecordInv t := storeInv_reachable st h (id, t) (lookupTask_mem _ _ _ hl)
    rcases hi.1 with h1 | h1 | h1 | h1 <;> simp [DB.allowedStatuses, h1]
  refine ⟨hfour, ?_, ?_⟩
  · intro id t hl
    have hm := hfour id t hl
    simp [DB.allowedStatuses] at hm
    rcases hm with h1 | h1 | h1 | h1 <;> rw [h1] <;> decide
  · intro st' id s e now hs
    have hsr : ¬ s = "RUNNING" := fun hc => hs (by rw [hc]; decide)
    have hsc : ¬ (s = "COMPLETED" ∨ s = "FAILED") := by
      rintro (hc | hc) <;> exact hs (by rw [hc]; decide)
    unfold DB.update_task_status
    rw [if_neg hsr, if_neg hsc, ite_self]

/-- C10 witness: a reachable store whose row stays PENDING after a
CANCELLED write attempt, and the rejected CANCELLED update on a concrete
store. -/
theorem persisted_status_always_allowed_witness :
    exPendingRec.status ∈ DB.allowedStatuses
    ∧ DB.update_task_status emptyStore "t9" "CANCELLED" none 1 = (emptyStore, false) :=
  ⟨(persisted_status_always_allowed exOps1
      (Reachable.step _ (Reachable.step _ Reachable.init))).1 "t1" exPendingRec rfl,
   (persisted_status_always_allowed exOps1
      (Reachable.step _ (Reachable.step _ Reachable.init))).2.2 emptyStore "t9" "CANCELLED"
      none 1 (by decide)⟩
